import Mathlib

/-!
Verification of the srclib `store_cmds.go` command layer (package `src`).

The definitions below are a shallow embedding of `src/store_cmds.go`:

* `doStoreIndexesCmd` — the concurrent index listing and building pipeline.  The Go
  code has one producer (the backend call, which pushes `store.IndexStatus`
  values into an unbuffered channel) and one consumer goroutine (selected by the
  `--output` mode) that renders each event and, in text mode, accumulates an
  error flag; after the backend call returns, the channel is closed and the
  main flow waits for the consumer's drain signal.  The embedding serializes
  this single-producer/single-consumer rendezvous: the event stream is the list
  of statuses the backend emits, in emission order, and each event is fully
  rendered when it is consumed.
* The Go field `IndexStatus.Unit` is a pointer `*unit.ID2`; the renderer
  compares it with `!=`, i.e. by address.  It is modelled as
  `Option (Nat × ID2)`: an allocation identifier paired with the pointee, so
  pointer comparison is comparison of the identifiers.  Distinct events may
  carry distinct allocations holding equal `ID2` values.
* The filter constructors of the various commands (`StoreUnitsCmd.filters`,
  `StoreDefsCmd.filters`, `StoreRefsCmd.filters`, `storeIndexCriteria`) and
  the import pipeline of `StoreImportCmd.Execute`.  `log.Fatal` (which ends
  the process before anything later runs) is modelled as an `Except.error`
  return.
* Capability dispatch: Go's runtime interface assertions (`s.(store.TreeStore)`
  etc.) on the constructed backend value are modelled as boolean capability
  fields of a `Backend` record together with its concrete type name.
-/

namespace Srclib

/-- Decidable equality of `Except` results, componentwise. -/
instance {ε α : Type} [DecidableEq ε] [DecidableEq α] : DecidableEq (Except ε α) := fun a b =>
  match a, b with
  | Except.ok x, Except.ok y =>
    if h : x = y then Decidable.isTrue (by rw [h])
    else Decidable.isFalse (by simp [h])
  | Except.error x, Except.error y =>
    if h : x = y then Decidable.isTrue (by rw [h])
    else Decidable.isFalse (by simp [h])
  | Except.ok _, Except.error _ => Decidable.isFalse (by simp)
  | Except.error _, Except.ok _ => Decidable.isFalse (by simp)

/-- `unit.ID2`: a source unit identity, a (type, name) pair. -/
structure ID2 where
  type : String
  name : String
deriving DecidableEq

/-- `store.IndexStatus`, with the fields used by `doStoreIndexesCmd`.  The Go
`Unit` field is a pointer `*unit.ID2`; it is modelled as `none` for `nil` or
`some (addr, value)` where `addr` is the allocation identifier, so that the
renderer's pointer comparison `x.Unit != lastUnit` can be expressed. -/
structure IndexStatus where
  repo : String
  commitID : String
  unit : Option (Nat × ID2)
  name : String
  typ : String
  stale : Bool
  size : Nat
  error : String
  buildError : String
  buildDuration : Nat
deriving DecidableEq

/-- Go pointer equality on the modelled `*unit.ID2` field: `nil == nil`, and
two non-nil pointers are equal iff their addresses are equal. -/
def ptrEq : Option (Nat × ID2) → Option (Nat × ID2) → Bool
  | none, none => true
  | some a, some b => a.1 == b.1
  | _, _ => false

/-- One rendered output item of the `doStoreIndexesCmd` consumer goroutine.
`jsonRecord` is one `PrintJSON` record (json mode); the others are the lines
of the text mode, with the detail line keeping the conditionally printed
fields (size only if nonzero, error/build error only if nonempty, duration
only if nonzero). -/
inductive RenderItem where
  | blank : RenderItem
  | repoHeader (repo : String) : RenderItem
  | commitLine (commitID : String) : RenderItem
  | unitHeader (u : ID2) : RenderItem
  | detail (indent : Bool) (name typ : String) (stale : Bool)
      (size : Option Nat) (error buildError : Option String)
      (buildDuration : Option Nat) : RenderItem
  | jsonRecord (x : IndexStatus) : RenderItem
deriving DecidableEq

/-- The consumer goroutine's loop state in text mode: the `lastRepo`,
`lastCommitID`, `lastUnit` variables plus the shared `hasError` flag. -/
structure TextState where
  lastRepo : String
  lastCommitID : String
  lastUnit : Option (Nat × ID2)
  hasError : Bool
deriving DecidableEq

/-- The initial consumer state: empty `lastRepo`/`lastCommitID`, `nil`
`lastUnit`, `hasError = false`. -/
def initTextState : TextState :=
  { lastRepo := "", lastCommitID := "", lastUnit := none, hasError := false }

/-- The repository header lines of one text-mode iteration (store_cmds.go
lines 539-546): printed only for a multi-repository store and only when the
event's repo differs from `lastRepo`, preceded by a blank line except before
the first group. -/
def repoHeaderItems (isMultiRepo : Bool) (st : TextState) (x : IndexStatus) : List RenderItem :=
  if isMultiRepo && x.repo != st.lastRepo then
    (if st.lastRepo != "" then [RenderItem.blank] else []) ++ [RenderItem.repoHeader x.repo]
  else []

/-- The commit line of one text-mode iteration (store_cmds.go lines 547-549):
printed when the event's commit ID differs from `lastCommitID`. -/
def commitLineItems (st : TextState) (x : IndexStatus) : List RenderItem :=
  if x.commitID != st.lastCommitID then [RenderItem.commitLine x.commitID] else []

/-- The unit header lines of one text-mode iteration (store_cmds.go lines
550-555): printed when the event's unit POINTER differs from `lastUnit`
(`x.Unit != lastUnit`, a pointer comparison) and is non-nil, preceded by a
blank line when repo and commit did not change. -/
def unitHeaderItems (st : TextState) (x : IndexStatus) : List RenderItem :=
  if !(ptrEq x.unit st.lastUnit) && x.unit.isSome then
    (if x.repo == st.lastRepo && x.commitID == st.lastCommitID then [RenderItem.blank] else []) ++
    (match x.unit with
     | some p => [RenderItem.unitHeader p.2]
     | none => [])
  else []

/-- The detail line of one text-mode iteration (store_cmds.go lines 557-580):
always printed, with size / error / build error / duration shown only when
nonzero or nonempty. -/
def detailItemOf (x : IndexStatus) : RenderItem :=
  RenderItem.detail x.unit.isSome x.name x.typ x.stale
    (if x.size != 0 then some x.size else none)
    (if x.error != "" then some x.error else none)
    (if x.buildError != "" then some x.buildError else none)
    (if x.buildDuration != 0 then some x.buildDuration else none)

/-- One iteration of the text-mode consumer loop of `doStoreIndexesCmd`
(store_cmds.go lines 535-587): the header lines, the detail line, and the
state update; `hasError` becomes true when the event carries a nonempty
`Error` or `BuildError`. -/
def renderTextEvent (isMultiRepo : Bool) (st : TextState) (x : IndexStatus) :
    TextState × List RenderItem :=
  ({ lastRepo := x.repo, lastCommitID := x.commitID, lastUnit := x.unit,
     hasError := st.hasError || x.error != "" || x.buildError != "" },
   repoHeaderItems isMultiRepo st x ++ commitLineItems st x ++ unitHeaderItems st x ++
     [detailItemOf x])

/-- The text-mode consumer goroutine: consume every event in emission order,
threading the loop state. -/
def renderTextList (isMultiRepo : Bool) (st : TextState) :
    List IndexStatus → TextState × List RenderItem
  | [] => (st, [])
  | x :: xs =>
    let p := renderTextEvent isMultiRepo st x
    let q := renderTextList isMultiRepo p.1 xs
    (q.1, p.2 ++ q.2)

/-- The aggregate error returned when some event carried an error
(store_cmds.go line 601). -/
def indexErrorsMsg : String := "\nindex listing or index building errors occurred (see above)"

/-- `doStoreIndexesCmd` (store_cmds.go lines 511-604), shared by the `indexes`
and `index` commands.  `events` is the sequence of statuses the backend
function `f` pushes into the channel, in order; `backendErr` is `f`'s return
value.  The result is the list of items the consumer rendered before the
drain handshake completed, paired with the returned error (`none` = success).
In json mode each event is one serialized record and the error flag is never
set; in text mode the consumer accumulates `hasError`; an unrecognized
`--output` value returns an error before the backend function is invoked. -/
def doStoreIndexesCmd (isMultiRepo : Bool) (output : String)
    (events : List IndexStatus) (backendErr : Option String) :
    List RenderItem × Option String :=
  if output == "json" then
    (events.map RenderItem.jsonRecord, backendErr)
  else if output == "text" then
    let p := renderTextList isMultiRepo initTextState events
    (p.2,
      match backendErr with
      | some e => some e
      | none => if p.1.hasError then some indexErrorsMsg else none)
  else ([], some ("unexpected --output value: \"" ++ output ++ "\""))

/-- An item that corresponds to one consumed status event: a json record or a
text detail line. -/
def isRenderedEvent : RenderItem → Bool
  | RenderItem.detail _ _ _ _ _ _ _ _ => true
  | RenderItem.jsonRecord _ => true
  | _ => false

/-- Number of consumed-and-rendered status events among the output items. -/
def countRendered (l : List RenderItem) : Nat :=
  (l.filter isRenderedEvent).length

/-- Whether an output item is a unit header line. -/
def isUnitHeader : RenderItem → Bool
  | RenderItem.unitHeader _ => true
  | _ => false

/-- Number of unit header lines among the output items. -/
def countUnitHeaders (l : List RenderItem) : Nat :=
  (l.filter isUnitHeader).length

/-- Whether the item list contains a repository header line. -/
def hasRepoHeader (l : List RenderItem) : Bool :=
  l.any fun i => match i with
    | RenderItem.repoHeader _ => true
    | _ => false

/-- Whether the item list contains a commit line. -/
def hasCommitLine (l : List RenderItem) : Bool :=
  l.any fun i => match i with
    | RenderItem.commitLine _ => true
    | _ => false

/-- Whether the item list contains a unit header line. -/
def hasUnitHeader (l : List RenderItem) : Bool :=
  l.any isUnitHeader

/-- Whether a status event carries a per-event error. -/
def eventHasError (x : IndexStatus) : Bool :=
  x.error != "" || x.buildError != ""

/-! ## Backend selection (`StoreCmd.store`, store_cmds.go lines 139-147) -/

/-- Drop characters up to and including the first occurrence of `//`; `none`
when there is no `//`. -/
def dropThroughDoubleSlash : List Char → Option (List Char)
  | [] => none
  | [_] => none
  | a :: b :: rest =>
    if a = '/' && b = '/' then some rest
    else dropThroughDoubleSlash (b :: rest)

/-- Take characters up to (excluding) the first `/`. -/
def takeUntilSlash : List Char → List Char
  | [] => []
  | c :: rest => if c = '/' then [] else c :: takeUntilSlash rest

/-- The host component of the parsed root, as `net/url.Parse` produces it for
the root strings this command accepts: the segment between the first `//` and
the following `/`; empty when the root has no `//` (e.g. a relative path such
as `"./store"`, which Go parses as a URL with an empty host).  This models the
external standard-library parse that `StoreCmd.store` calls. -/
def urlHost (s : String) : String :=
  match dropThroughDoubleSlash s.data with
  | some rest => String.mk (takeUntilSlash rest)
  | none => ""

/-- `strings.HasSuffix`. -/
def strHasSuffix (s suffix : String) : Bool :=
  List.isSuffixOf suffix.data s.data

/-- The virtual filesystem backing `StoreCmd.store` selects: `s3vfs.S3` for a
root whose URL host ends in `amazonaws.com`, `rwvfs.OS` rooted at the root
path otherwise. -/
inductive StoreBacking where
  | s3 (root : String) : StoreBacking
  | osFS (root : String) : StoreBacking
deriving DecidableEq

/-- The backing selection of `StoreCmd.store` (store_cmds.go lines 139-147):
parse the root as a URL and pick object storage when its host has the
`amazonaws.com` suffix, the local OS filesystem rooted at the root otherwise. -/
def selectBacking (root : String) : StoreBacking :=
  if strHasSuffix (urlHost root) "amazonaws.com" then StoreBacking.s3 root
  else StoreBacking.osFS root

/-! ## Capability dispatch

Go's command handlers perform runtime interface assertions against the single
constructed backend value (`s.(store.MultiRepoStore)`, `s.(store.RepoStore)`,
`s.(store.TreeStore)`, `s.(store.UnitStore)`, `s.(store.RepoImporter)`,
`s.(store.MultiRepoImporter)`).  The backend is modelled as a record of the
outcomes of these assertions plus the concrete type name that `%T` formats
into the error messages. -/

structure Backend where
  typeName : String
  isMultiRepoStore : Bool
  isRepoStore : Bool
  isTreeStore : Bool
  isUnitStore : Bool
  isRepoImporter : Bool
  isMultiRepoImporter : Bool
deriving DecidableEq

/-- The capability error message `"store (type %T) does not implement <op>"`
used by every capability check in store_cmds.go. -/
def capErrMsg (typeName op : String) : String :=
  "store (type " ++ typeName ++ ") does not implement " ++ op

/-! ## Filter predicates and the query commands -/

/-- Split a character list on `/`. -/
def splitSlashes : List Char → List (List Char)
  | [] => [[]]
  | c :: rest =>
    let r := splitSlashes rest
    if c = '/' then [] :: r
    else
      match r with
      | h :: t => (c :: h) :: t
      | [] => [[c]]

/-- Join path components with `/`. -/
def joinSlash : List (List Char) → List Char
  | [] => []
  | [x] => x
  | x :: xs => x ++ '/' :: joinSlash xs

/-- `path.Clean` (Go standard library, called by the `--file` filters):
lexical cleaning of a slash-separated path (drop empty and `.` components,
resolve `..` against preceding components, keep leading `..` components in a
relative path, keep rootedness). -/
def pathClean (p : String) : String :=
  match p.data with
  | [] => "."
  | c :: cs =>
    let rooted := c = '/'
    let comps := (splitSlashes (c :: cs)).filter fun k => k ≠ [] && k ≠ ['.']
    let rev := comps.foldl
      (fun acc k =>
        if k = ['.', '.'] then
          match acc with
          | [] => if rooted then [] else [['.', '.']]
          | prev :: rest => if prev = ['.', '.'] then k :: acc else rest
        else k :: acc)
      ([] : List (List Char))
    let body := joinSlash rev.reverse
    if rooted then String.mk ('/' :: body)
    else if body = [] then "." else String.mk body

/-- `store.RepoFilter` values built by `StoreReposCmd.filters`. -/
inductive RepoFilter where
  | idContains (s : String) : RepoFilter
deriving DecidableEq

/-- `store.VersionFilter` values built by `StoreVersionsCmd.filters`. -/
inductive VersionFilter where
  | byRepo (repo : String) : VersionFilter
  | byCommitIDStart (p : String) : VersionFilter
deriving DecidableEq

/-- `store.UnitFilter` values built by `StoreUnitsCmd.filters`. -/
inductive UnitFilter where
  | byUnits (u : ID2) : UnitFilter
  | byCommitID (c : String) : UnitFilter
  | byRepo (r : String) : UnitFilter
  | byFiles (f : String) : UnitFilter
deriving DecidableEq

/-- `store.DefFilter` values built by `StoreDefsCmd.filters`.  `byNameStart`
is the `NamePrefix` closure (definition name begins with the given string). -/
inductive DefFilter where
  | byUnits (u : ID2) : DefFilter
  | byCommitID (c : String) : DefFilter
  | byRepo (r : String) : DefFilter
  | byDefPath (p : String) : DefFilter
  | byFiles (f : String) : DefFilter
  | byNameStart (p : String) : DefFilter
  | limit (n : Int) : DefFilter
deriving DecidableEq

/-- `graph.RefDefKey`: the target-definition key of a reference. -/
structure RefDefKey where
  defRepo : String
  defUnitType : String
  defUnit : String
  defPath : String
deriving DecidableEq

/-- `store.RefFilter` values built by `StoreRefsCmd.filters`.  `byStartGE` and
`byEndLE` are the `Start`/`End` closures (`ref.Start >= c.Start`,
`ref.End <= c.End`). -/
inductive RefFilter where
  | byUnits (u : ID2) : RefFilter
  | byCommitID (c : String) : RefFilter
  | byRepo (r : String) : RefFilter
  | byFiles (f : String) : RefFilter
  | byStartGE (s : Nat) : RefFilter
  | byEndLE (e : Nat) : RefFilter
  | byRefDef (k : RefDefKey) : RefFilter
deriving DecidableEq

/-- `graph.Ref`, with the fields the ref filters inspect.  The byte range
bounds are `uint32` in Go; values are the corresponding naturals. -/
structure Ref where
  defRepo : String
  defUnitType : String
  defUnit : String
  defPath : String
  repo : String
  commitID : String
  unitType : String
  unit : String
  file : String
  start : Nat
  stop : Nat
deriving DecidableEq

/-- Modelled from the spec: the external store applies a set of filter
predicates with AND semantics; a ref matches one `RefFilter` as follows (the
closures' bodies are from `StoreRefsCmd.filters`). -/
def refMatches (f : RefFilter) (r : Ref) : Bool :=
  match f with
  | RefFilter.byUnits u => r.unitType == u.type && r.unit == u.name
  | RefFilter.byCommitID c => r.commitID == c
  | RefFilter.byRepo rp => r.repo == rp
  | RefFilter.byFiles f => r.file == f
  | RefFilter.byStartGE s => decide (s ≤ r.start)
  | RefFilter.byEndLE e => decide (r.stop ≤ e)
  | RefFilter.byRefDef k =>
    r.defRepo == k.defRepo && r.defUnitType == k.defUnitType &&
    r.defUnit == k.defUnit && r.defPath == k.defPath

/-- Modelled from the spec: a ref matches a filter list iff it matches every
filter (logical AND). -/
def refMatchesAll (fs : List RefFilter) (r : Ref) : Bool :=
  fs.all fun f => refMatches f r

/-- Modelled from the spec: the refs returned by the store are exactly the
stored refs matching every filter. -/
def refsQueryResult (fs : List RefFilter) (refs : List Ref) : List Ref :=
  refs.filter (refMatchesAll fs)

/-- The usage error of the units command's unit pair check. -/
def unitsPairMsg : String :=
  "must specify either both or neither of --type and --name (to filter by source unit)"

/-- The usage error of the unit-type/unit pair checks (defs, refs, index
criteria). -/
def unitPairMsg : String :=
  "must specify either both or neither of --unit-type and --unit (to filter by source unit)"

/-- The usage error of the ref target-def 4-tuple check. -/
def refDefTupleMsg : String :=
  "must specify either all or neither of --def-repo, --def-unit-type, --def-unit, and --def-path (to filter by ref target def)"

/-- The usage error of the stale pair check in the index criteria. -/
def staleMsg : String :=
  "must specify exactly one of --stale and --not-stale"

/-- The flags of `StoreUnitsCmd`. -/
structure StoreUnitsCmd where
  type : String
  name : String
  commitID : String
  repo : String
  file : String
deriving DecidableEq

/-- `StoreUnitsCmd.filters` (store_cmds.go lines 720-738); `log.Fatal` on a
partially specified unit pair is the error case. -/
def StoreUnitsCmd.filters (c : StoreUnitsCmd) : Except String (List UnitFilter) :=
  let fs : List UnitFilter := []
  let fs := if c.type != "" && c.name != "" then fs ++ [UnitFilter.byUnits ⟨c.type, c.name⟩] else fs
  if (c.type != "" && c.name == "") || (c.type == "" && c.name != "") then
    Except.error unitsPairMsg
  else
    let fs := if c.commitID != "" then fs ++ [UnitFilter.byCommitID c.commitID] else fs
    let fs := if c.repo != "" then fs ++ [UnitFilter.byRepo c.repo] else fs
    let fs := if c.file != "" then fs ++ [UnitFilter.byFiles (pathClean c.file)] else fs
    Except.ok fs

/-- The flags of `StoreDefsCmd` (`namePfx` is the Go `NamePrefix` flag). -/
structure StoreDefsCmd where
  repo : String
  path : String
  unitType : String
  unit : String
  file : String
  filePathStart : String
  commitID : String
  namePfx : String
  limit : Int
deriving DecidableEq

/-- `StoreDefsCmd.filters` (store_cmds.go lines 775-807). -/
def StoreDefsCmd.filters (c : StoreDefsCmd) : Except String (List DefFilter) :=
  let fs : List DefFilter := []
  let fs := if c.unitType != "" && c.unit != "" then fs ++ [DefFilter.byUnits ⟨c.unitType, c.unit⟩] else fs
  if (c.unitType != "" && c.unit == "") || (c.unitType == "" && c.unit != "") then
    Except.error unitPairMsg
  else
    let fs := if c.commitID != "" then fs ++ [DefFilter.byCommitID c.commitID] else fs
    let fs := if c.repo != "" then fs ++ [DefFilter.byRepo c.repo] else fs
    let fs := if c.path != "" then fs ++ [DefFilter.byDefPath c.path] else fs
    let fs := if c.file != "" then fs ++ [DefFilter.byFiles (pathClean c.file)] else fs
    let fs := if c.filePathStart != "" then fs ++ [DefFilter.byFiles (pathClean c.filePathStart)] else fs
    let fs := if c.namePfx != "" then fs ++ [DefFilter.byNameStart c.namePfx] else fs
    let fs := if c.limit != 0 then fs ++ [DefFilter.limit c.limit] else fs
    Except.ok fs

/-- The flags of `StoreRefsCmd` (`stop` is the Go `End` flag, a `uint32`). -/
structure StoreRefsCmd where
  repo : String
  unitType : String
  unit : String
  file : String
  commitID : String
  start : Nat
  stop : Nat
  defRepo : String
  defUnitType : String
  defUnit : String
  defPath : String
deriving DecidableEq

/-- `StoreRefsCmd.filters` (store_cmds.go lines 846-885). -/
def StoreRefsCmd.filters (c : StoreRefsCmd) : Except String (List RefFilter) :=
  let fs : List RefFilter := []
  let fs := if c.unitType != "" && c.unit != "" then fs ++ [RefFilter.byUnits ⟨c.unitType, c.unit⟩] else fs
  if (c.unitType != "" && c.unit == "") || (c.unitType == "" && c.unit != "") then
    Except.error unitPairMsg
  else
    let fs := if c.commitID != "" then fs ++ [RefFilter.byCommitID c.commitID] else fs
    let fs := if c.repo != "" then fs ++ [RefFilter.byRepo c.repo] else fs
    let fs := if c.file != "" then fs ++ [RefFilter.byFiles (pathClean c.file)] else fs
    let fs := if c.start != 0 then fs ++ [RefFilter.byStartGE c.start] else fs
    let fs := if c.stop != 0 then fs ++ [RefFilter.byEndLE c.stop] else fs
    let fs :=
      if c.defRepo != "" && c.defUnitType != "" && c.defUnit != "" && c.defPath != "" then
        fs ++ [RefFilter.byRefDef ⟨c.defRepo, c.defUnitType, c.defUnit, c.defPath⟩]
      else fs
    if (c.defRepo != "" || c.defUnitType != "" || c.defUnit != "" || c.defPath != "") &&
       (c.defRepo == "" || c.defUnitType == "" || c.defUnit == "" || c.defPath == "") then
      Except.error refDefTupleMsg
    else
      Except.ok fs

/-- The flags of `storeIndexCriteria`. -/
structure storeIndexCriteria where
  repo : String
  commitID : String
  unitType : String
  unit : String
  name : String
  type : String
  stale : Bool
  notStale : Bool
deriving DecidableEq

/-- `store.IndexCriteria`, with the fields `storeIndexCriteria.IndexCriteria`
fills in. -/
structure IndexCriteria where
  repo : String
  commitID : String
  name : String
  type : String
  stale : Option Bool
  unit : Option ID2
deriving DecidableEq

/-- `storeIndexCriteria.IndexCriteria` (store_cmds.go lines 482-507):
`log.Fatal` on `--stale` together with `--not-stale`, and on a partially
specified unit pair, are the error cases. -/
def storeIndexCriteria.IndexCriteria (c : storeIndexCriteria) :
    Except String Srclib.IndexCriteria :=
  let crit : Srclib.IndexCriteria :=
    { repo := c.repo, commitID := c.commitID, name := c.name, type := c.type,
      stale := none, unit := none }
  if c.stale && c.notStale then Except.error staleMsg
  else
    let crit := if c.stale then { crit with stale := some true } else crit
    let crit := if c.notStale then { crit with stale := some false } else crit
    if c.unitType != "" || c.unit != "" then
      if c.unitType == "" || c.unit == "" then Except.error unitPairMsg
      else Except.ok { crit with unit := some ⟨c.unitType, c.unit⟩ }
    else Except.ok crit

/-- The flags of `StoreReposCmd`. -/
structure StoreReposCmd where
  idContains : String
deriving DecidableEq

/-- `StoreReposCmd.filters` (store_cmds.go lines 636-642). -/
def StoreReposCmd.filters (c : StoreReposCmd) : List RepoFilter :=
  if c.idContains != "" then [RepoFilter.idContains c.idContains] else []

/-- `StoreReposCmd.Execute` (store_cmds.go lines 646-665): capability check
against `store.MultiRepoStore`, then the `Repos` query (abstracted as
`reposQ`). -/
def StoreReposCmd.Execute (c : StoreReposCmd) (s : Backend)
    (reposQ : List RepoFilter → Except String (List String)) :
    Except String (List String) :=
  if s.isMultiRepoStore then reposQ c.filters
  else Except.error (capErrMsg s.typeName "listing repositories")

/-- The flags of `StoreVersionsCmd` (`commitIDPfx` is the Go `CommitIDPrefix`
flag). -/
structure StoreVersionsCmd where
  repo : String
  commitIDPfx : String
deriving DecidableEq

/-- `StoreVersionsCmd.filters` (store_cmds.go lines 672-683). -/
def StoreVersionsCmd.filters (c : StoreVersionsCmd) : List VersionFilter :=
  let fs : List VersionFilter := []
  let fs := if c.repo != "" then fs ++ [VersionFilter.byRepo c.repo] else fs
  let fs := if c.commitIDPfx != "" then fs ++ [VersionFilter.byCommitIDStart c.commitIDPfx] else fs
  fs

/-- `StoreVersionsCmd.Execute` (store_cmds.go lines 687-709): capability check
against `store.RepoStore`, then the `Versions` query. -/
def StoreVersionsCmd.Execute (c : StoreVersionsCmd) (s : Backend)
    (versionsQ : List VersionFilter → Except String (List (String × String))) :
    Except String (List (String × String)) :=
  if s.isRepoStore then versionsQ c.filters
  else Except.error (capErrMsg s.typeName "listing versions")

/-- `unit.SourceUnit`, with the identity fields the import filter inspects. -/
structure SourceUnit where
  type : String
  name : String
deriving DecidableEq

/-- `StoreUnitsCmd.Execute` (store_cmds.go lines 742-759): capability check
against `store.TreeStore`, then the filter construction (whose `log.Fatal`
aborts before the query), then the `Units` query. -/
def StoreUnitsCmd.Execute (c : StoreUnitsCmd) (s : Backend)
    (unitsQ : List UnitFilter → Except String (List SourceUnit)) :
    Except String (List SourceUnit) :=
  if s.isTreeStore then
    match c.filters with
    | Except.error e => Except.error e
    | Except.ok fs => unitsQ fs
  else Except.error (capErrMsg s.typeName "listing source units")

/-- `graph.DefDoc`: one documentation entry attached to a definition. -/
structure DefDoc where
  format : String
  data : String
deriving DecidableEq

/-- `graph.Def`, with the fields the import pipeline touches. -/
structure Def where
  path : String
  name : String
  file : String
  docs : List DefDoc
deriving DecidableEq

/-- `StoreDefsCmd.Execute` (store_cmds.go lines 811-828). -/
def StoreDefsCmd.Execute (c : StoreDefsCmd) (s : Backend)
    (defsQ : List DefFilter → Except String (List Def)) :
    Except String (List Def) :=
  if s.isUnitStore then
    match c.filters with
    | Except.error e => Except.error e
    | Except.ok fs => defsQ fs
  else Except.error (capErrMsg s.typeName "listing defs")

/-- `StoreRefsCmd.Execute` (store_cmds.go lines 889-906). -/
def StoreRefsCmd.Execute (c : StoreRefsCmd) (s : Backend)
    (refsQ : List RefFilter → Except String (List Ref)) :
    Except String (List Ref) :=
  if s.isUnitStore then
    match c.filters with
    | Except.error e => Except.error e
    | Except.ok fs => refsQ fs
  else Except.error (capErrMsg s.typeName "listing refs")

/-- `StoreIndexesCmd.Execute` / `StoreIndexCmd.Execute` (store_cmds.go lines
617-630): the criteria construction (whose `log.Fatal` aborts first) followed
by `doStoreIndexesCmd`; the backend function's emissions and return value are
`events` and `backendErr` as in `doStoreIndexesCmd`. -/
def StoreIndexesCmd.Execute (crit : storeIndexCriteria) (output : String)
    (isMultiRepo : Bool) (events : List IndexStatus) (backendErr : Option String) :
    Except String (List RenderItem) :=
  match crit.IndexCriteria with
  | Except.error e => Except.error e
  | Except.ok _ =>
    let p := doStoreIndexesCmd isMultiRepo output events backendErr
    match p.2 with
    | some e => Except.error e
    | none => Except.ok p.1

/-! ## The import pipeline (`StoreImportCmd.Execute`, store_cmds.go lines 198-296) -/

/-- `graph.Doc`: a documentation record keyed by a def path. -/
structure Doc where
  path : String
  format : String
  data : String
deriving DecidableEq

/-- `ann.Ann`: an annotation (opaque to the import pipeline; only counted). -/
structure Ann where
  data : String
deriving DecidableEq

/-- `graph.Output`: the structured graph output of one rule's target file. -/
structure GraphOutput where
  defs : List Def
  refs : List Ref
  docs : List Doc
  anns : List Ann
deriving DecidableEq

/-- The `docsByPath` map of the import transformation (store_cmds.go lines
269-272): every doc is inserted keyed by its path, a later doc overwriting an
earlier one with the same path; the result is lookup in the final map. -/
def docsByPath (docs : List Doc) (p : String) : Option Doc :=
  docs.foldl (fun acc doc => if doc.path == p then some doc else acc) none

/-- The per-definition documentation transfer (store_cmds.go lines 273-277):
when the map holds a doc for the def's path, append one `DefDoc` with that
doc's format and data. -/
def transferDef (docs : List Doc) (d : Def) : Def :=
  match docsByPath docs d.path with
  | some doc => { d with docs := d.docs ++ [⟨doc.format, doc.data⟩] }
  | none => d

/-- The whole-output documentation transfer: apply `transferDef` to every
definition. -/
def transferDocs (g : GraphOutput) : GraphOutput :=
  { g with defs := g.defs.map (transferDef g.docs) }

/-- A makefile rule (`plan.CreateMakefile` output).  `graphUnitRule` is
`*grapher.GraphUnitRule` (exposes its source unit and a target file holding
graph output); `sourceUnitRule` is any other rule implementing
`SourceUnit()`; `otherRule` exposes no source unit. -/
inductive Rule where
  | graphUnitRule (u : SourceUnit) (target : String) : Rule
  | sourceUnitRule (u : SourceUnit) (target : String) : Rule
  | otherRule (target : String) : Rule
deriving DecidableEq

/-- The `SourceUnit()` accessor: `none` on a rule that does not implement the
`ruleForSourceUnit` interface. -/
def Rule.sourceUnit : Rule → Option SourceUnit
  | Rule.graphUnitRule u _ => some u
  | Rule.sourceUnitRule u _ => some u
  | Rule.otherRule _ => none

/-- The rule filter of the import loop (store_cmds.go lines 239-253): when a
`--unit` or `--unit-type` constraint is given, keep only rules exposing a
source unit whose name/type match every given constraint; rules without a
source unit are skipped whenever either constraint is given. -/
def ruleSelected (unitF unitTypeF : String) (r : Rule) : Bool :=
  if unitF != "" || unitTypeF != "" then
    match r.sourceUnit with
    | some u => !((unitF != "" && u.name != unitF) || (unitTypeF != "" && u.type != unitTypeF))
    | none => false
  else true

/-- An observable action of the import loop: reading a rule's target file as
graph output (`readJSONFileFS`), the dry-run/verbose count log line, or an
invocation of the repository-scoped or multi-repository importer capability
(the only actions that change the store). -/
inductive ImportEffect where
  | loadGraphData (target : String) : ImportEffect
  | logRule (numDefs numRefs numDocs numAnns : Nat) (unitType unitName : String) : ImportEffect
  | importRepo (commitID : String) (u : SourceUnit) (data : GraphOutput) : ImportEffect
  | importMulti (repo commitID : String) (u : SourceUnit) (data : GraphOutput) : ImportEffect
deriving DecidableEq

/-- The rule loop of `StoreImportCmd.Execute` (store_cmds.go lines 238-292).
`s` is the backend; `impRepo`/`impMulti` are the importers' outcomes (`none` =
success); `bdfs` is the build-data filesystem (`none` = read failure);
`unitF`/`unitTypeF` are the `--unit`/`--unit-type` flags.  The result is the
ordered list of observable actions, or the error that aborted the loop. -/
def runImportRules (s : Backend)
    (impRepo : String → SourceUnit → GraphOutput → Option String)
    (impMulti : String → String → SourceUnit → GraphOutput → Option String)
    (dryRun verbose : Bool) (unitF unitTypeF repo commitID : String)
    (bdfs : String → Option GraphOutput) : List Rule → Except String (List ImportEffect)
  | [] => Except.ok []
  | r :: rs =>
    if ruleSelected unitF unitTypeF r then
      match r with
      | Rule.graphUnitRule u target =>
        match bdfs target with
        | none => Except.error ("error reading graph data file " ++ target)
        | some data =>
          let logEffs :=
            if dryRun || verbose then
              [ImportEffect.logRule data.defs.length data.refs.length data.docs.length
                data.anns.length u.type u.name]
            else []
          if dryRun then
            match runImportRules s impRepo impMulti dryRun verbose unitF unitTypeF repo commitID bdfs rs with
            | Except.error e => Except.error e
            | Except.ok rest => Except.ok (ImportEffect.loadGraphData target :: logEffs ++ rest)
          else
            let data2 := transferDocs data
            if s.isRepoImporter then
              match impRepo commitID u data2 with
              | some e => Except.error e
              | none =>
                match runImportRules s impRepo impMulti dryRun verbose unitF unitTypeF repo commitID bdfs rs with
                | Except.error e => Except.error e
                | Except.ok rest =>
                  Except.ok (ImportEffect.loadGraphData target :: logEffs ++
                    ImportEffect.importRepo commitID u data2 :: rest)
            else if s.isMultiRepoImporter then
              match impMulti repo commitID u data2 with
              | some e => Except.error e
              | none =>
                match runImportRules s impRepo impMulti dryRun verbose unitF unitTypeF repo commitID bdfs rs with
                | Except.error e => Except.error e
                | Except.ok rest =>
                  Except.ok (ImportEffect.loadGraphData target :: logEffs ++
                    ImportEffect.importMulti repo commitID u data2 :: rest)
            else Except.error (capErrMsg s.typeName "importing")
      | _ => runImportRules s impRepo impMulti dryRun verbose unitF unitTypeF repo commitID bdfs rs
    else runImportRules s impRepo impMulti dryRun verbose unitF unitTypeF repo commitID bdfs rs

/-- The effect trace of a successful run; `[]` for an aborted run. -/
def okTrace : Except String (List ImportEffect) → List ImportEffect
  | Except.ok t => t
  | Except.error _ => []

/-- Whether an effect is an importer invocation (the only store mutation). -/
def isImportEffect : ImportEffect → Bool
  | ImportEffect.importRepo _ _ _ => true
  | ImportEffect.importMulti _ _ _ _ => true
  | _ => false

/-- Number of importer invocations in a trace. -/
def countImports (t : List ImportEffect) : Nat :=
  (t.filter isImportEffect).length

/-- Whether an effect is a graph-output load. -/
def isLoadEffect : ImportEffect → Bool
  | ImportEffect.loadGraphData _ => true
  | _ => false

/-! ## Helper lemmas about the index pipeline -/

theorem renderTextEvent_fst (m : Bool) (st : TextState) (x : IndexStatus) :
    (renderTextEvent m st x).1 =
      { lastRepo := x.repo, lastCommitID := x.commitID, lastUnit := x.unit,
        hasError := st.hasError || x.error != "" || x.buildError != "" } := rfl

theorem countRendered_append (a b : List RenderItem) :
    countRendered (a ++ b) = countRendered a + countRendered b := by
  simp [countRendered, List.filter_append]

theorem countRendered_repoHeaderItems (m : Bool) (st : TextState) (x : IndexStatus) :
    countRendered (repoHeaderItems m st x) = 0 := by
  unfold repoHeaderItems
  split
  · split <;> rfl
  · rfl

theorem countRendered_commitLineItems (st : TextState) (x : IndexStatus) :
    countRendered (commitLineItems st x) = 0 := by
  unfold commitLineItems
  split <;> rfl

theorem countRendered_unitHeaderItems (st : TextState) (x : IndexStatus) :
    countRendered (unitHeaderItems st x) = 0 := by
  unfold unitHeaderItems
  split
  · cases x.unit <;> split <;> rfl
  · rfl

theorem countRendered_event (m : Bool) (st : TextState) (x : IndexStatus) :
    countRendered (renderTextEvent m st x).2 = 1 := by
  show countRendered (repoHeaderItems m st x ++ commitLineItems st x ++
    unitHeaderItems st x ++ [detailItemOf x]) = 1
  rw [countRendered_append, countRendered_append, countRendered_append,
    countRendered_repoHeaderItems, countRendered_commitLineItems, countRendered_unitHeaderItems]
  rfl

theorem countRendered_renderTextList (m : Bool) (st : TextState) (xs : List IndexStatus) :
    countRendered (renderTextList m st xs).2 = xs.length := by
  induction xs generalizing st with
  | nil => rfl
  | cons x xs ih =>
    show countRendered ((renderTextEvent m st x).2 ++
      (renderTextList m (renderTextEvent m st x).1 xs).2) = xs.length + 1
    rw [countRendered_append, countRendered_event, ih]
    omega

theorem hasError_renderTextList (m : Bool) (st : TextState) (xs : List IndexStatus) :
    (renderTextList m st xs).1.hasError = (st.hasError || xs.any eventHasError) := by
  induction xs generalizing st with
  | nil => simp [renderTextList]
  | cons x xs ih =>
    show (renderTextList m (renderTextEvent m st x).1 xs).1.hasError = _
    rw [ih, renderTextEvent_fst]
    simp [eventHasError, Bool.or_assoc]

theorem doStoreIndexesCmd_json (m : Bool) (events : List IndexStatus) (be : Option String) :
    doStoreIndexesCmd m "json" events be = (events.map RenderItem.jsonRecord, be) := rfl

theorem doStoreIndexesCmd_text_fst (m : Bool) (events : List IndexStatus) (be : Option String) :
    (doStoreIndexesCmd m "text" events be).1 = (renderTextList m initTextState events).2 := by
  cases be <;> rfl

theorem doStoreIndexesCmd_text_err (m : Bool) (events : List IndexStatus) (e : String) :
    (doStoreIndexesCmd m "text" events (some e)).2 = some e := rfl

theorem doStoreIndexesCmd_text_ok (m : Bool) (events : List IndexStatus) :
    (doStoreIndexesCmd m "text" events none).2 =
      (if (renderTextList m initTextState events).1.hasError then some indexErrorsMsg
       else none) := rfl

theorem countRendered_map_json (l : List IndexStatus) :
    countRendered (l.map RenderItem.jsonRecord) = l.length := by
  induction l with
  | nil => rfl
  | cons x xs ih => simpa [countRendered, isRenderedEvent] using ih

/-! ## Claims -/

/-- A concrete status event carrying a nonempty per-event `Error`. -/
def sampleErrorEvent : IndexStatus :=
  { repo := "r", commitID := "c", unit := none, name := "n", typ := "T", stale := false,
    size := 0, error := "boom", buildError := "", buildDuration := 0 }

/-- C1 (counterexample): in json output mode, a status event with a nonempty
`Error` does NOT make `doStoreIndexesCmd` report failure when the backend call
itself returns no error — the json consumer never sets `hasError`, so the
command returns success, contradicting the claim's "in both output modes". -/
theorem json_mode_ignores_event_errors :
    sampleErrorEvent.error ≠ "" ∧
    (doStoreIndexesCmd false "json" [sampleErrorEvent] none).2 = none := by
  decide

/-- C1 (amended): in TEXT output mode, if any status event received from the
channel carries a nonempty `Error` or `BuildError`, `doStoreIndexesCmd`
returns a non-nil error even when the backend call returns none; in json
output mode the returned outcome is exactly the backend call's own result,
per-event errors notwithstanding. -/
theorem event_errors_fail_text_mode :
    (∀ (m : Bool) (events : List IndexStatus) (backendErr : Option String),
      events.any eventHasError = true →
      (doStoreIndexesCmd m "text" events backendErr).2.isSome = true) ∧
    (∀ (m : Bool) (events : List IndexStatus) (backendErr : Option String),
      (doStoreIndexesCmd m "json" events backendErr).2 = backendErr) := by
  constructor
  · intro m events be h
    cases be with
    | some e => rw [doStoreIndexesCmd_text_err]; rfl
    | none =>
      rw [doStoreIndexesCmd_text_ok]
      have herr : (renderTextList m initTextState events).1.hasError = true := by
        rw [hasError_renderTextList]
        simp [initTextState, h]
      rw [herr]
      rfl
  · intro m events be
    rw [doStoreIndexesCmd_json]

/-- C1 (witness): the amended text-mode aggregation at a concrete input. -/
theorem event_errors_fail_text_mode_witness :
    (doStoreIndexesCmd false "text" [sampleErrorEvent] none).2.isSome = true :=
  event_errors_fail_text_mode.1 false [sampleErrorEvent] none (by decide)

/-- C2: for every sequence of `N` status events the backend function emits,
and for every backend return value (including errors), `doStoreIndexesCmd`
renders exactly `N` events before returning, in both output modes — the
channel is always drained. -/
theorem all_status_events_rendered (m : Bool) (events : List IndexStatus)
    (backendErr : Option String) :
    countRendered (doStoreIndexesCmd m "json" events backendErr).1 = events.length ∧
    countRendered (doStoreIndexesCmd m "text" events backendErr).1 = events.length := by
  constructor
  · rw [doStoreIndexesCmd_json]
    exact countRendered_map_json events
  · rw [doStoreIndexesCmd_text_fst]
    exact countRendered_renderTextList m initTextState events

theorem hasRepoHeader_append (a b : List RenderItem) :
    hasRepoHeader (a ++ b) = (hasRepoHeader a || hasRepoHeader b) := by
  simp [hasRepoHeader, List.any_append]

theorem hasCommitLine_append (a b : List RenderItem) :
    hasCommitLine (a ++ b) = (hasCommitLine a || hasCommitLine b) := by
  simp [hasCommitLine, List.any_append]

theorem hasUnitHeader_append (a b : List RenderItem) :
    hasUnitHeader (a ++ b) = (hasUnitHeader a || hasUnitHeader b) := by
  simp [hasUnitHeader, List.any_append]

theorem hasRepoHeader_repoHeaderItems (m : Bool) (st : TextState) (x : IndexStatus) :
    hasRepoHeader (repoHeaderItems m st x) = (m && x.repo != st.lastRepo) := by
  unfold repoHeaderItems
  split
  next h => rw [h]; split <;> rfl
  next h =>
    simp only [Bool.not_eq_true] at h
    rw [h]
    rfl

theorem hasRepoHeader_commitLineItems (st : TextState) (x : IndexStatus) :
    hasRepoHeader (commitLineItems st x) = false := by
  unfold commitLineItems
  split <;> rfl

theorem hasRepoHeader_unitHeaderItems (st : TextState) (x : IndexStatus) :
    hasRepoHeader (unitHeaderItems st x) = false := by
  unfold unitHeaderItems
  split
  · cases x.unit <;> split <;> rfl
  · rfl

theorem hasCommitLine_repoHeaderItems (m : Bool) (st : TextState) (x : IndexStatus) :
    hasCommitLine (repoHeaderItems m st x) = false := by
  unfold repoHeaderItems
  split
  · split <;> rfl
  · rfl

theorem hasCommitLine_commitLineItems (st : TextState) (x : IndexStatus) :
    hasCommitLine (commitLineItems st x) = (x.commitID != st.lastCommitID) := by
  unfold commitLineItems
  split
  next h => rw [h]; rfl
  next h =>
    simp only [Bool.not_eq_true] at h
    rw [h]
    rfl

theorem hasCommitLine_unitHeaderItems (st : TextState) (x : IndexStatus) :
    hasCommitLine (unitHeaderItems st x) = false := by
  unfold unitHeaderItems
  split
  · cases x.unit <;> split <;> rfl
  · rfl

theorem hasUnitHeader_repoHeaderItems (m : Bool) (st : TextState) (x : IndexStatus) :
    hasUnitHeader (repoHeaderItems m st x) = false := by
  unfold repoHeaderItems
  split
  · split <;> rfl
  · rfl

theorem hasUnitHeader_commitLineItems (st : TextState) (x : IndexStatus) :
    hasUnitHeader (commitLineItems st x) = false := by
  unfold commitLineItems
  split <;> rfl

theorem hasUnitHeader_unitHeaderItems (st : TextState) (x : IndexStatus) :
    hasUnitHeader (unitHeaderItems st x) = (!(ptrEq x.unit st.lastUnit) && x.unit.isSome) := by
  unfold unitHeaderItems
  split
  next h =>
    rw [h]
    cases hu : x.unit with
    | none => rw [hu] at h; simp at h
    | some p => split <;> rfl
  next h =>
    simp only [Bool.not_eq_true] at h
    rw [h]
    rfl

/-- A concrete status event whose unit pointer is allocation 1 holding the
identity (GoPackage, p). -/
def sampleUnitEvent1 : IndexStatus :=
  { repo := "r", commitID := "c", unit := some (1, ⟨"GoPackage", "p"⟩), name := "n1",
    typ := "T", stale := false, size := 0, error := "", buildError := "", buildDuration := 0 }

/-- A second event for the same repo, commit and unit identity, carried by a
DIFFERENT allocation (pointer 2). -/
def sampleUnitEvent2 : IndexStatus :=
  { sampleUnitEvent1 with unit := some (2, ⟨"GoPackage", "p"⟩), name := "n2" }

/-- C9 (counterexample): two consecutive events with the SAME repository,
commit, and unit identity (type and name), but delivered through distinct
`*unit.ID2` allocations, make the text renderer print a unit header line for
both events (count 2), although the unit identity never changes after the
first event — the renderer compares `x.Unit != lastUnit` by pointer, not by
identity, so headers are not printed exactly on identity changes. -/
theorem unit_header_reprinted_same_identity :
    sampleUnitEvent1.unit.map Prod.snd = sampleUnitEvent2.unit.map Prod.snd ∧
    sampleUnitEvent1.repo = sampleUnitEvent2.repo ∧
    sampleUnitEvent1.commitID = sampleUnitEvent2.commitID ∧
    countUnitHeaders (renderTextList false initTextState
      [sampleUnitEvent1, sampleUnitEvent2]).2 = 2 := by
  decide

/-- C9 (amended): for every consumed event, the text renderer prints a
repository header exactly when the store is multi-repo and the event's repo
differs from the previous one, a commit line exactly when the commit ID
differs from the previous one, and a unit header exactly when the event's
unit POINTER differs from the previous event's unit pointer and is non-nil;
in particular, when consecutive events both carry units and their identities
differ (pointers being consistent: equal addresses hold equal values), a
unit header is printed — but a unit header may also reprint when the
identity is unchanged and only the allocation differs. -/
theorem text_grouping_headers_amended (m : Bool) (st : TextState) (x : IndexStatus) :
    hasRepoHeader (renderTextEvent m st x).2 = (m && x.repo != st.lastRepo) ∧
    hasCommitLine (renderTextEvent m st x).2 = (x.commitID != st.lastCommitID) ∧
    hasUnitHeader (renderTextEvent m st x).2 = (!(ptrEq x.unit st.lastUnit) && x.unit.isSome) ∧
    (∀ (a : Nat) (u : ID2) (b : Nat) (v : ID2),
      x.unit = some (a, u) → st.lastUnit = some (b, v) → u ≠ v → (a = b → u = v) →
      hasUnitHeader (renderTextEvent m st x).2 = true) := by
  have hsnd : (renderTextEvent m st x).2 = repoHeaderItems m st x ++ commitLineItems st x ++
      unitHeaderItems st x ++ [detailItemOf x] := rfl
  have hr : hasRepoHeader (renderTextEvent m st x).2 = (m && x.repo != st.lastRepo) := by
    rw [hsnd, hasRepoHeader_append, hasRepoHeader_append, hasRepoHeader_append,
      hasRepoHeader_repoHeaderItems, hasRepoHeader_commitLineItems, hasRepoHeader_unitHeaderItems]
    cases x.unit <;> simp [hasRepoHeader, detailItemOf]
  have hc : hasCommitLine (renderTextEvent m st x).2 = (x.commitID != st.lastCommitID) := by
    rw [hsnd, hasCommitLine_append, hasCommitLine_append, hasCommitLine_append,
      hasCommitLine_repoHeaderItems, hasCommitLine_commitLineItems, hasCommitLine_unitHeaderItems]
    cases x.unit <;> simp [hasCommitLine, detailItemOf]
  have hu : hasUnitHeader (renderTextEvent m st x).2 =
      (!(ptrEq x.unit st.lastUnit) && x.unit.isSome) := by
    rw [hsnd, hasUnitHeader_append, hasUnitHeader_append, hasUnitHeader_append,
      hasUnitHeader_repoHeaderItems, hasUnitHeader_commitLineItems, hasUnitHeader_unitHeaderItems]
    cases x.unit <;> simp [hasUnitHeader, detailItemOf, isUnitHeader]
  refine ⟨hr, hc, hu, ?_⟩
  intro a u b v hx hst huv hcons
  rw [hu, hx, hst]
  have hab : a ≠ b := fun hab => huv (hcons hab)
  simp [ptrEq, hab]

/-- C9 (witness): the amended unit-header behavior at a concrete input — the
previous event's unit lives at a different address and has a different
identity, so a header is printed. -/
theorem text_grouping_headers_amended_witness :
    hasUnitHeader (renderTextEvent false
      { lastRepo := "r", lastCommitID := "c", lastUnit := some (3, ⟨"Other", "q"⟩),
        hasError := false } sampleUnitEvent1).2 = true :=
  (text_grouping_headers_amended false
    { lastRepo := "r", lastCommitID := "c", lastUnit := some (3, ⟨"Other", "q"⟩),
      hasError := false } sampleUnitEvent1).2.2.2
    1 ⟨"GoPackage", "p"⟩ 3 ⟨"Other", "q"⟩ rfl rfl (by decide) (by intro h; cases h)

/-! ## Helper lemmas about the filter constructors -/

theorem unitsFilters_badPair (c : StoreUnitsCmd)
    (h : ((c.type != "" && c.name == "") || (c.type == "" && c.name != "")) = true) :
    c.filters = Except.error unitsPairMsg := by
  unfold StoreUnitsCmd.filters
  simp [h]

theorem defsFilters_badPair (c : StoreDefsCmd)
    (h : ((c.unitType != "" && c.unit == "") || (c.unitType == "" && c.unit != "")) = true) :
    c.filters = Except.error unitPairMsg := by
  unfold StoreDefsCmd.filters
  simp [h]

theorem refsFilters_badPair (c : StoreRefsCmd)
    (h : ((c.unitType != "" && c.unit == "") || (c.unitType == "" && c.unit != "")) = true) :
    c.filters = Except.error unitPairMsg := by
  unfold StoreRefsCmd.filters
  simp [h]

theorem refsFilters_badTuple (c : StoreRefsCmd)
    (hp : ((c.unitType != "" && c.unit == "") || (c.unitType == "" && c.unit != "")) = false)
    (ht : ((c.defRepo != "" || c.defUnitType != "" || c.defUnit != "" || c.defPath != "") &&
      (c.defRepo == "" || c.defUnitType == "" || c.defUnit == "" || c.defPath == "")) = true) :
    c.filters = Except.error refDefTupleMsg := by
  unfold StoreRefsCmd.filters
  simp [hp, ht]

theorem criteria_staleConflict (c : storeIndexCriteria)
    (h : (c.stale && c.notStale) = true) :
    c.IndexCriteria = Except.error staleMsg := by
  unfold storeIndexCriteria.IndexCriteria
  simp [h]

theorem criteria_badUnitPair (c : storeIndexCriteria)
    (hs : (c.stale && c.notStale) = false)
    (h : ((c.unitType != "" && c.unit == "") || (c.unitType == "" && c.unit != "")) = true) :
    c.IndexCriteria = Except.error unitPairMsg := by
  unfold storeIndexCriteria.IndexCriteria
  cases hA : (c.unitType == "") <;> cases hB : (c.unit == "") <;>
    simp [bne, hA, hB, hs] at h ⊢

/-- C3: for the units, defs, refs and index commands, supplying exactly one of
the unit-type/unit-name pair, or (refs) a nonempty proper subset of the
def-target 4-tuple, or (index criteria) both `--stale` and `--not-stale`,
makes the filter constructor return the fatal usage error — the partial
filter is never dropped — and the command's `Execute` returns that error for
EVERY possible backend query behavior, i.e. before any query runs. -/
theorem partial_compound_filters_fatal :
    (∀ c : StoreUnitsCmd,
      ((c.type != "" && c.name == "") || (c.type == "" && c.name != "")) = true →
      c.filters = Except.error unitsPairMsg) ∧
    (∀ c : StoreDefsCmd,
      ((c.unitType != "" && c.unit == "") || (c.unitType == "" && c.unit != "")) = true →
      c.filters = Except.error unitPairMsg) ∧
    (∀ c : StoreRefsCmd,
      ((c.unitType != "" && c.unit == "") || (c.unitType == "" && c.unit != "")) = true →
      c.filters = Except.error unitPairMsg) ∧
    (∀ c : StoreRefsCmd,
      ((c.unitType != "" && c.unit == "") || (c.unitType == "" && c.unit != "")) = false →
      ((c.defRepo != "" || c.defUnitType != "" || c.defUnit != "" || c.defPath != "") &&
       (c.defRepo == "" || c.defUnitType == "" || c.defUnit == "" || c.defPath == "")) = true →
      c.filters = Except.error refDefTupleMsg) ∧
    (∀ c : storeIndexCriteria, (c.stale && c.notStale) = true →
      c.IndexCriteria = Except.error staleMsg) ∧
    (∀ c : storeIndexCriteria, (c.stale && c.notStale) = false →
      ((c.unitType != "" && c.unit == "") || (c.unitType == "" && c.unit != "")) = true →
      c.IndexCriteria = Except.error unitPairMsg) ∧
    (∀ (c : StoreUnitsCmd) (s : Backend)
      (q : List UnitFilter → Except String (List SourceUnit)), s.isTreeStore = true →
      ((c.type != "" && c.name == "") || (c.type == "" && c.name != "")) = true →
      c.Execute s q = Except.error unitsPairMsg) ∧
    (∀ (c : StoreDefsCmd) (s : Backend)
      (q : List DefFilter → Except String (List Def)), s.isUnitStore = true →
      ((c.unitType != "" && c.unit == "") || (c.unitType == "" && c.unit != "")) = true →
      c.Execute s q = Except.error unitPairMsg) ∧
    (∀ (c : StoreRefsCmd) (s : Backend)
      (q : List RefFilter → Except String (List Ref)), s.isUnitStore = true →
      ((c.unitType != "" && c.unit == "") || (c.unitType == "" && c.unit != "")) = true →
      c.Execute s q = Except.error unitPairMsg) ∧
    (∀ (c : storeIndexCriteria) (output : String) (m : Bool)
      (events : List IndexStatus) (be : Option String), (c.stale && c.notStale) = true →
      StoreIndexesCmd.Execute c output m events be = Except.error staleMsg) := by
  refine ⟨unitsFilters_badPair, defsFilters_badPair, refsFilters_badPair,
    refsFilters_badTuple, criteria_staleConflict, criteria_badUnitPair,
    ?_, ?_, ?_, ?_⟩
  · intro c s q hcap hp
    simp [StoreUnitsCmd.Execute, hcap, unitsFilters_badPair c hp]
  · intro c s q hcap hp
    simp [StoreDefsCmd.Execute, hcap, defsFilters_badPair c hp]
  · intro c s q hcap hp
    simp [StoreRefsCmd.Execute, hcap, refsFilters_badPair c hp]
  · intro c output m events be h
    simp [StoreIndexesCmd.Execute, criteria_staleConflict c h]

/-- C3 (witness): the usage errors at concrete partially specified inputs. -/
theorem partial_compound_filters_fatal_witness :
    StoreUnitsCmd.filters ⟨"T", "", "", "", ""⟩ = Except.error unitsPairMsg ∧
    StoreRefsCmd.filters ⟨"", "", "", "", "", 0, 0, "dr", "", "", ""⟩ =
      Except.error refDefTupleMsg ∧
    storeIndexCriteria.IndexCriteria ⟨"", "", "", "", "", "", true, true⟩ =
      Except.error staleMsg :=
  ⟨partial_compound_filters_fatal.1 ⟨"T", "", "", "", ""⟩ (by decide),
   partial_compound_filters_fatal.2.2.2.1 ⟨"", "", "", "", "", 0, 0, "dr", "", "", ""⟩
     (by decide) (by decide),
   partial_compound_filters_fatal.2.2.2.2.1 ⟨"", "", "", "", "", "", true, true⟩ (by decide)⟩

/-! ## Sample objects for the import pipeline claims -/

/-- A concrete backend supporting the repository-scoped capabilities and the
repository-scoped importer, but not the multi-repository ones. -/
def sampleBackendRepoImp : Backend :=
  { typeName := "*store.fsRepoStore", isMultiRepoStore := false, isRepoStore := true,
    isTreeStore := true, isUnitStore := true, isRepoImporter := true,
    isMultiRepoImporter := false }

/-- A concrete graph output with one def and one matching doc record. -/
def sampleGraphData : GraphOutput :=
  { defs := [{ path := "a/b", name := "d1", file := "f.go", docs := [] }], refs := [],
    docs := [{ path := "a/b", format := "text", data := "docbody" }], anns := [] }

/-- A concrete build-data filesystem holding graph output only at `tg1`. -/
def sampleBdfs : String → Option GraphOutput :=
  fun t => if t == "tg1" then some sampleGraphData else none

/-- C4: a rule that exposes no source unit is always skipped when a unit or
unit-type filter is set; a selected rule's source unit matches every given
constraint exactly; and on the concrete rule list R1 (t1, u1), R2 (t2, u2),
non-unit R3 with filters unit = u1, unit-type = t1, only the data of R1 gets
brought into the store. -/
theorem import_rule_filtering :
    (∀ (unitF unitTypeF : String) (r : Rule), (unitF != "" || unitTypeF != "") = true →
      r.sourceUnit = none → ruleSelected unitF unitTypeF r = false) ∧
    (∀ (unitF unitTypeF : String) (r : Rule) (u : SourceUnit),
      ruleSelected unitF unitTypeF r = true → r.sourceUnit = some u →
      ((unitF != "") = true → u.name = unitF) ∧
      ((unitTypeF != "") = true → u.type = unitTypeF)) ∧
    (runImportRules sampleBackendRepoImp (fun _ _ _ => none) (fun _ _ _ _ => none)
      false false "u1" "t1" "rp" "cc" sampleBdfs
      [Rule.graphUnitRule ⟨"t1", "u1"⟩ "tg1", Rule.graphUnitRule ⟨"t2", "u2"⟩ "tg2",
       Rule.otherRule "tg3"]
      = Except.ok [ImportEffect.loadGraphData "tg1",
          ImportEffect.importRepo "cc" ⟨"t1", "u1"⟩ (transferDocs sampleGraphData)]) := by
  refine ⟨?_, ?_, by decide⟩
  · intro unitF unitTypeF r h hnone
    simp [ruleSelected, h, hnone]
  · intro unitF unitTypeF r u hsel hsu
    constructor
    · intro hne
      by_contra hname
      have hx : (u.name != unitF) = true := bne_iff_ne.mpr hname
      have hfalse : ruleSelected unitF unitTypeF r = false := by
        unfold ruleSelected
        rw [hsu, if_pos (Bool.or_eq_true _ _ |>.mpr (Or.inl hne))]
        simp [hne, hx]
      rw [hfalse] at hsel
      cases hsel
    · intro hte
      by_contra htype
      have hx : (u.type != unitTypeF) = true := bne_iff_ne.mpr htype
      have hfalse : ruleSelected unitF unitTypeF r = false := by
        unfold ruleSelected
        rw [hsu, if_pos (Bool.or_eq_true _ _ |>.mpr (Or.inr hte))]
        simp [hte, hx]
      rw [hfalse] at hsel
      cases hsel

/-- C4 (witness): the skip of a non-source-unit rule at a concrete input. -/
theorem import_rule_filtering_witness :
    ruleSelected "u1" "" (Rule.otherRule "x") = false :=
  Srclib.import_rule_filtering.1 "u1" "" (Rule.otherRule "x") (by decide) rfl

/-- C8 (counterexample): with dry-run set and one graph rule, the import loop
DOES load the rule's graph output (`readJSONFileFS` runs before the dry-run
check — the logged counts come from the loaded data), contradicting the
claim's "no graph output is loaded": the effect trace contains the load. -/
theorem dry_run_loads_graph_output :
    runImportRules sampleBackendRepoImp (fun _ _ _ => none) (fun _ _ _ _ => none)
      true false "" "" "rp" "cc" sampleBdfs [Rule.graphUnitRule ⟨"t1", "u1"⟩ "tg1"]
      = Except.ok [ImportEffect.loadGraphData "tg1",
          ImportEffect.logRule 1 0 1 0 "t1" "u1"] ∧
    (okTrace (runImportRules sampleBackendRepoImp (fun _ _ _ => none) (fun _ _ _ _ => none)
      true false "" "" "rp" "cc" sampleBdfs
      [Rule.graphUnitRule ⟨"t1", "u1"⟩ "tg1"])).any isLoadEffect = true := by
  decide

/-- C8 (amended): with dry-run set, each surviving graph rule's output is
loaded and its definition/reference/doc/annotation counts are logged, but
neither importer capability is ever invoked — the effect trace of every
dry-run execution contains zero importer invocations, so the store is
unchanged; the graph output is NOT transformed or brought into the store. -/
theorem dry_run_no_import_amended :
    (∀ (s : Backend) (iR : String → SourceUnit → GraphOutput → Option String)
      (iM : String → String → SourceUnit → GraphOutput → Option String)
      (vb : Bool) (uF tF rp ci : String) (bdfs : String → Option GraphOutput)
      (rules : List Rule),
      countImports (okTrace (runImportRules s iR iM true vb uF tF rp ci bdfs rules)) = 0) ∧
    (∀ (s : Backend) (iR : String → SourceUnit → GraphOutput → Option String)
      (iM : String → String → SourceUnit → GraphOutput → Option String)
      (vb : Bool) (uF tF rp ci : String) (bdfs : String → Option GraphOutput)
      (u : SourceUnit) (target : String) (data : GraphOutput) (rs : List Rule),
      bdfs target = some data → ruleSelected uF tF (Rule.graphUnitRule u target) = true →
      runImportRules s iR iM true vb uF tF rp ci bdfs (Rule.graphUnitRule u target :: rs) =
        (match runImportRules s iR iM true vb uF tF rp ci bdfs rs with
         | Except.error e => Except.error e
         | Except.ok rest => Except.ok (ImportEffect.loadGraphData target ::
             ImportEffect.logRule data.defs.length data.refs.length data.docs.length
               data.anns.length u.type u.name :: rest))) := by
  constructor
  · intro s iR iM vb uF tF rp ci bdfs rules
    induction rules with
    | nil => rfl
    | cons r rs ih =>
      by_cases hsel : ruleSelected uF tF r = true
      · cases r with
        | graphUnitRule u target =>
          cases hb : bdfs target with
          | none => simp [runImportRules, hsel, hb, okTrace, countImports]
          | some data =>
            cases hr : runImportRules s iR iM true vb uF tF rp ci bdfs rs with
            | error e => simp [runImportRules, hsel, hb, hr, okTrace, countImports]
            | ok rest =>
              rw [hr] at ih
              simp only [okTrace, countImports] at ih
              simp [runImportRules, hsel, hb, hr, okTrace, countImports, isImportEffect, ih]
        | sourceUnitRule u target => simpa [runImportRules, hsel] using ih
        | otherRule target => simpa [runImportRules, hsel] using ih
      · rw [Bool.not_eq_true] at hsel
        simpa [runImportRules, hsel] using ih
  · intro s iR iM vb uF tF rp ci bdfs u target data rs hb hsel
    simp [runImportRules, hsel, hb]

/-- C8 (witness): the amended dry-run behavior at a concrete input. -/
theorem dry_run_no_import_amended_witness :
    runImportRules sampleBackendRepoImp (fun _ _ _ => none) (fun _ _ _ _ => none)
      true false "" "" "rp" "cc" sampleBdfs [Rule.graphUnitRule ⟨"t1", "u1"⟩ "tg1"] =
      (match runImportRules sampleBackendRepoImp (fun _ _ _ => none) (fun _ _ _ _ => none)
        true false "" "" "rp" "cc" sampleBdfs ([] : List Rule) with
       | Except.error e => Except.error e
       | Except.ok rest => Except.ok (ImportEffect.loadGraphData "tg1" ::
           ImportEffect.logRule sampleGraphData.defs.length sampleGraphData.refs.length
             sampleGraphData.docs.length sampleGraphData.anns.length "t1" "u1" :: rest)) :=
  dry_run_no_import_amended.2 sampleBackendRepoImp (fun _ _ _ => none) (fun _ _ _ _ => none)
    false "" "" "rp" "cc" sampleBdfs ⟨"t1", "u1"⟩ "tg1" sampleGraphData [] (by decide) (by decide)

/-- C6: every operation needing an optional backend capability fails, when the
constructed backend value lacks it, with the capability error naming the
requested operation and the backend's concrete type; in particular repository
listing against a non-multi-repository backend fails with the "does not
implement listing repositories" error, and importing against a backend with
neither importer capability aborts with the "does not implement importing"
error. -/
theorem capability_errors :
    (∀ (c : StoreReposCmd) (s : Backend)
      (q : List RepoFilter → Except String (List String)), s.isMultiRepoStore = false →
      c.Execute s q = Except.error (capErrMsg s.typeName "listing repositories")) ∧
    (∀ (c : StoreVersionsCmd) (s : Backend)
      (q : List VersionFilter → Except String (List (String × String))), s.isRepoStore = false →
      c.Execute s q = Except.error (capErrMsg s.typeName "listing versions")) ∧
    (∀ (c : StoreUnitsCmd) (s : Backend)
      (q : List UnitFilter → Except String (List SourceUnit)), s.isTreeStore = false →
      c.Execute s q = Except.error (capErrMsg s.typeName "listing source units")) ∧
    (∀ (c : StoreDefsCmd) (s : Backend)
      (q : List DefFilter → Except String (List Def)), s.isUnitStore = false →
      c.Execute s q = Except.error (capErrMsg s.typeName "listing defs")) ∧
    (∀ (c : StoreRefsCmd) (s : Backend)
      (q : List RefFilter → Except String (List Ref)), s.isUnitStore = false →
      c.Execute s q = Except.error (capErrMsg s.typeName "listing refs")) ∧
    (∀ (s : Backend) (iR : String → SourceUnit → GraphOutput → Option String)
      (iM : String → String → SourceUnit → GraphOutput → Option String)
      (vb : Bool) (rp ci : String) (bdfs : String → Option GraphOutput)
      (u : SourceUnit) (target : String) (data : GraphOutput) (rs : List Rule),
      s.isRepoImporter = false → s.isMultiRepoImporter = false → bdfs target = some data →
      runImportRules s iR iM false vb "" "" rp ci bdfs (Rule.graphUnitRule u target :: rs) =
        Except.error (capErrMsg s.typeName "importing")) := by
  refine ⟨?_, ?_, ?_, ?_, ?_, ?_⟩
  · intro c s q h
    simp [StoreReposCmd.Execute, h]
  · intro c s q h
    simp [StoreVersionsCmd.Execute, h]
  · intro c s q h
    simp [StoreUnitsCmd.Execute, h]
  · intro c s q h
    simp [StoreDefsCmd.Execute, h]
  · intro c s q h
    simp [StoreRefsCmd.Execute, h]
  · intro s iR iM vb rp ci bdfs u target data rs h1 h2 hb
    simp [runImportRules, ruleSelected, hb, h1, h2]

/-- C6 (witness): the repository-listing capability error at a concrete
backend (the repository-scoped store). -/
theorem capability_errors_witness :
    StoreReposCmd.Execute ⟨""⟩ sampleBackendRepoImp (fun _ => Except.ok []) =
      Except.error (capErrMsg "*store.fsRepoStore" "listing repositories") :=
  capability_errors.1 ⟨""⟩ sampleBackendRepoImp (fun _ => Except.ok []) rfl

/-! ## Helper lemmas for the documentation merge -/

theorem docsByPath_noMatch (docs : List Doc) (p : String) (acc : Option Doc)
    (h : ∀ doc ∈ docs, doc.path ≠ p) :
    docs.foldl (fun acc doc => if doc.path == p then some doc else acc) acc = acc := by
  induction docs generalizing acc with
  | nil => rfl
  | cons d ds ih =>
    have hd : (d.path == p) = false := beq_eq_false_iff_ne.mpr (h d (List.mem_cons_self d ds))
    rw [List.foldl_cons]
    simp only [hd, Bool.false_eq_true, if_false]
    exact ih acc fun doc hm => h doc (List.mem_cons_of_mem d hm)

theorem docsByPath_last_wins (l1 : List Doc) (doc : Doc) (l2 : List Doc) (p : String)
    (hp : doc.path = p) (h2 : ∀ x ∈ l2, x.path ≠ p) :
    docsByPath (l1 ++ doc :: l2) p = some doc := by
  unfold docsByPath
  rw [List.foldl_append, List.foldl_cons]
  have hd : (doc.path == p) = true := beq_iff_eq.mpr hp
  simp only [hd, if_true]
  exact docsByPath_noMatch l2 p (some doc) h2

theorem transferDef_noMatch (docs : List Doc) (d : Def)
    (h : ∀ doc ∈ docs, doc.path ≠ d.path) :
    transferDef docs d = d := by
  unfold transferDef
  rw [show docsByPath docs d.path = none from docsByPath_noMatch docs d.path none h]

/-- C5: in the import transformation, a definition with no matching doc record
keeps its documentation unchanged; when the doc records with the def's path
are `l1 ++ [doc] ++ l2` and none AFTER `doc` matches (so `doc` is the last
matching record), the definition acquires exactly one documentation entry,
carrying that record's format and content (in particular with exactly one
matching record); and the whole-output transformation maps this over all
definitions. -/
theorem import_docs_merge (d : Def) :
    (∀ docs : List Doc, (∀ doc ∈ docs, doc.path ≠ d.path) → transferDef docs d = d) ∧
    (∀ (l1 : List Doc) (doc : Doc) (l2 : List Doc), doc.path = d.path →
      (∀ x ∈ l1, x.path ≠ d.path) → (∀ x ∈ l2, x.path ≠ d.path) →
      transferDef (l1 ++ doc :: l2) d =
        { d with docs := d.docs ++ [DefDoc.mk doc.format doc.data] }) ∧
    (∀ (l1 : List Doc) (doc : Doc) (l2 : List Doc), doc.path = d.path →
      (∀ x ∈ l2, x.path ≠ d.path) →
      transferDef (l1 ++ doc :: l2) d =
        { d with docs := d.docs ++ [DefDoc.mk doc.format doc.data] }) ∧
    (∀ g : GraphOutput, (transferDocs g).defs = g.defs.map (transferDef g.docs)) := by
  have h3 : ∀ (l1 : List Doc) (doc : Doc) (l2 : List Doc), doc.path = d.path →
      (∀ x ∈ l2, x.path ≠ d.path) →
      transferDef (l1 ++ doc :: l2) d =
        { d with docs := d.docs ++ [DefDoc.mk doc.format doc.data] } := by
    intro l1 doc l2 hp h2
    unfold transferDef
    rw [docsByPath_last_wins l1 doc l2 d.path hp h2]
  exact ⟨fun docs h => transferDef_noMatch docs d h,
    fun l1 doc l2 hp _ h2 => h3 l1 doc l2 hp h2, h3, fun g => rfl⟩

/-- C5 (witness): one def, one matching doc record — exactly one entry is
attached, with the doc's format and content. -/
theorem import_docs_merge_witness :
    transferDef [Doc.mk "a/b" "text" "docbody"]
      { path := "a/b", name := "d1", file := "f.go", docs := [] } =
      { path := "a/b", name := "d1", file := "f.go",
        docs := [DefDoc.mk "text" "docbody"] } :=
  (import_docs_merge { path := "a/b", name := "d1", file := "f.go", docs := [] }).2.1
    [] (Doc.mk "a/b" "text" "docbody") [] rfl (by simp) (by simp)

/-- C7: `StoreCmd.store` selects the object-storage backing exactly for a root
whose parsed URL host ends in `amazonaws.com` (e.g. the claim's
`https://mybucket.s3.amazonaws.com/x`), and the local OS-filesystem backing
rooted at the root path otherwise (e.g. `./store`, whose parsed host is
empty). -/
theorem backend_selection_by_url_host :
    selectBacking "https://mybucket.s3.amazonaws.com/x" =
      StoreBacking.s3 "https://mybucket.s3.amazonaws.com/x" ∧
    selectBacking "./store" = StoreBacking.osFS "./store" ∧
    (∀ root : String, strHasSuffix (urlHost root) "amazonaws.com" = true →
      selectBacking root = StoreBacking.s3 root) ∧
    (∀ root : String, strHasSuffix (urlHost root) "amazonaws.com" = false →
      selectBacking root = StoreBacking.osFS root) := by
  refine ⟨by decide, by decide, ?_, ?_⟩
  · intro root h
    simp [selectBacking, h]
  · intro root h
    simp [selectBacking, h]

/-- C7 (witness): the object-storage selection at another concrete root. -/
theorem backend_selection_by_url_host_witness :
    selectBacking "http://x.amazonaws.com/y" = StoreBacking.s3 "http://x.amazonaws.com/y" :=
  backend_selection_by_url_host.2.2.1 "http://x.amazonaws.com/y" (by decide)

/-! ## Helper lemmas for the refs byte-range filters -/

theorem ite_append_singleton {α : Type} (p : Prop) [Decidable p] (l : List α) (x : α) :
    (if p then l ++ [x] else l) = l ++ (if p then [x] else []) := by
  split <;> simp

theorem mem_ite_singleton {α : Type} (p : Prop) [Decidable p] (x y : α) :
    (y ∈ if p then [x] else []) ↔ (p ∧ y = x) := by
  split <;> simp_all

/-- The filter list `StoreRefsCmd.filters` produces when neither usage check
fires, written as the concatenation of its conditional pieces (in the order
the source appends them). -/
def refsFilterList (c : StoreRefsCmd) : List RefFilter :=
  (if c.unitType != "" && c.unit != "" then [RefFilter.byUnits ⟨c.unitType, c.unit⟩] else []) ++
  (if c.commitID != "" then [RefFilter.byCommitID c.commitID] else []) ++
  (if c.repo != "" then [RefFilter.byRepo c.repo] else []) ++
  (if c.file != "" then [RefFilter.byFiles (pathClean c.file)] else []) ++
  (if c.start != 0 then [RefFilter.byStartGE c.start] else []) ++
  (if c.stop != 0 then [RefFilter.byEndLE c.stop] else []) ++
  (if c.defRepo != "" && c.defUnitType != "" && c.defUnit != "" && c.defPath != "" then
    [RefFilter.byRefDef ⟨c.defRepo, c.defUnitType, c.defUnit, c.defPath⟩] else [])

theorem refsFilters_ok (c : StoreRefsCmd)
    (hp : ((c.unitType != "" && c.unit == "") || (c.unitType == "" && c.unit != "")) = false)
    (ht : ((c.defRepo != "" || c.defUnitType != "" || c.defUnit != "" || c.defPath != "") &&
      (c.defRepo == "" || c.defUnitType == "" || c.defUnit == "" || c.defPath == "")) = false) :
    c.filters = Except.ok (refsFilterList c) := by
  unfold StoreRefsCmd.filters refsFilterList
  by_cases h1 : (c.unitType != "" && c.unit != "") = true <;>
  by_cases h2 : (c.commitID != "") = true <;>
  by_cases h3 : (c.repo != "") = true <;>
  by_cases h4 : (c.file != "") = true <;>
  by_cases h5 : (c.start != 0) = true <;>
  by_cases h6 : (c.stop != 0) = true <;>
  by_cases h7 : (c.defRepo != "" && c.defUnitType != "" && c.defUnit != "" &&
    c.defPath != "") = true <;>
  simp [hp, ht, h1, h2, h3, h4, h5, h6, h7]

/-- C10: a byte-range flag whose value is 0 adds no filter (and no filter list
any refs command produces contains the `End <= 0` filter, so no query can
restrict results to refs with End at most 0); a nonzero `--start` adds the
`Start >= start` filter and a nonzero `--end` adds the `End <= end` filter;
with `start = 0` every ref matches the lower bound; and under the store's AND
filter semantics, a returned ref satisfies every present bound. -/
theorem ref_byte_range_filters :
    (∀ (c : StoreRefsCmd) (fs : List RefFilter), c.filters = Except.ok fs →
      (c.start = 0 → ∀ s, RefFilter.byStartGE s ∉ fs) ∧
      (c.stop = 0 → ∀ e, RefFilter.byEndLE e ∉ fs) ∧
      RefFilter.byEndLE 0 ∉ fs ∧
      (c.start ≠ 0 → RefFilter.byStartGE c.start ∈ fs) ∧
      (c.stop ≠ 0 → RefFilter.byEndLE c.stop ∈ fs)) ∧
    (∀ r : Ref, refMatches (RefFilter.byStartGE 0) r = true) ∧
    (∀ (fs : List RefFilter) (refs : List Ref) (r : Ref) (s : Nat),
      RefFilter.byStartGE s ∈ fs → r ∈ refsQueryResult fs refs → s ≤ r.start) ∧
    (∀ (fs : List RefFilter) (refs : List Ref) (r : Ref) (e : Nat),
      RefFilter.byEndLE e ∈ fs → r ∈ refsQueryResult fs refs → r.stop ≤ e) := by
  refine ⟨?_, ?_, ?_, ?_⟩
  · intro c fs h
    have hp : ((c.unitType != "" && c.unit == "") ||
        (c.unitType == "" && c.unit != "")) = false := by
      cases hpc : ((c.unitType != "" && c.unit == "") || (c.unitType == "" && c.unit != "")) with
      | false => rfl
      | true => rw [refsFilters_badPair c hpc] at h; cases h
    have ht : ((c.defRepo != "" || c.defUnitType != "" || c.defUnit != "" || c.defPath != "") &&
        (c.defRepo == "" || c.defUnitType == "" || c.defUnit == "" || c.defPath == "")) = false := by
      cases htc : ((c.defRepo != "" || c.defUnitType != "" || c.defUnit != "" || c.defPath != "") &&
          (c.defRepo == "" || c.defUnitType == "" || c.defUnit == "" || c.defPath == "")) with
      | false => rfl
      | true => rw [refsFilters_badTuple c hp htc] at h; cases h
    rw [refsFilters_ok c hp ht] at h
    injection h with h
    subst h
    refine ⟨?_, ?_, ?_, ?_, ?_⟩
    · intro h0 s hmem
      simp [refsFilterList, mem_ite_singleton, h0] at hmem
    · intro h0 e hmem
      simp [refsFilterList, mem_ite_singleton, h0] at hmem
    · intro hmem
      simp [refsFilterList, mem_ite_singleton, bne_iff_ne] at hmem
      exact hmem.1 hmem.2.symm
    · intro h0
      simp [refsFilterList, mem_ite_singleton, bne_iff_ne, h0]
    · intro h0
      simp [refsFilterList, mem_ite_singleton, bne_iff_ne, h0]
  · intro r
    simp [refMatches]
  · intro fs refs r s hmem hr
    have hall : refMatchesAll fs r = true := (List.mem_filter.mp hr).2
    have hm : refMatches (RefFilter.byStartGE s) r = true :=
      List.all_eq_true.mp hall _ hmem
    simpa [refMatches] using hm
  · intro fs refs r e hmem hr
    have hall : refMatchesAll fs r = true := (List.mem_filter.mp hr).2
    have hm : refMatches (RefFilter.byEndLE e) r = true :=
      List.all_eq_true.mp hall _ hmem
    simpa [refMatches] using hm

/-- C10 (witness): at the concrete refs command with start 5 and end 7, the
built filter list is exactly the two bound filters, and it does not contain
the `End <= 0` filter. -/
theorem ref_byte_range_filters_witness :
    RefFilter.byEndLE 0 ∉ [RefFilter.byStartGE 5, RefFilter.byEndLE 7] :=
  (ref_byte_range_filters.1 ⟨"", "", "", "", "", 5, 7, "", "", "", ""⟩
    [RefFilter.byStartGE 5, RefFilter.byEndLE 7] (by decide)).2.2.1

end Srclib
